import Mathlib

/-!
Verification of the OCR demonstration repository.

The repository consists of two TypeScript data interfaces (`Image` and
`TextResult`), an entry point that builds an `OCR` client, calls
`ocr.extractText` on one hardcoded path, logs the result with
`console.log` and attaches a `.catch` handler that logs any error with
`console.error`.  The `OCR` class itself (`src/ocr/ocr.ts`) is not part of
the provided sources; where its behaviour matters it is modelled from the
specification, with an explicit note on the definition.

Modelling conventions:
  * the TypeScript `number` type is embedded as `Rat` (an exact, executable
    stand-in for the numeric values the claims reason about);
  * a JavaScript exception or promise rejection is a `JsError`, which
    carries only a message string (the source defines no richer taxonomy);
  * a fallible asynchronous call is an `Except JsError` value;
  * the observable behaviour of one process run is a `ProcState`: the
    stdout lines, the stderr lines, the list of paths passed to
    `extractText`, whether a rejection escaped every handler, and the exit
    code.
-/

/-- The `Image` interface from `src/types/index.ts`: `url: string`,
`width: number`, `height: number`.  The source places no constraint on the
numeric fields. -/
structure Image where
  url : String
  width : Rat
  height : Rat
deriving DecidableEq

/-- The `TextResult` interface from `src/types/index.ts`: `text: string`,
`confidence: number`. -/
structure TextResult where
  text : String
  confidence : Rat
deriving DecidableEq

/-- A JavaScript error value as the program uses it: only a message, since
the source defines no structured error taxonomy. -/
structure JsError where
  message : String
deriving DecidableEq

/-- Modelled from the spec: the external OCR engine behind the missing
`src/ocr/ocr.ts`.  `recognize` is the one opaque capability: given a path
it either produces a `TextResult` or fails with a generic error (covering
unreadable paths and engine faults alike, which the source does not
distinguish). -/
structure Engine where
  recognize : String → Except JsError TextResult

/-- Modelled from the spec: the engine contract that a successful
recognition carries a confidence score in the bounded range [0,1]. -/
def Engine.ConfidenceOk (eng : Engine) : Prop :=
  ∀ (path : String) (r : TextResult),
    eng.recognize path = Except.ok r → 0 ≤ r.confidence ∧ r.confidence ≤ 1

/-- Modelled from the spec: the empty path references no readable image
resource, so recognition fails on it, with a descriptive (nonempty)
message. -/
def Engine.EmptyPathFails (eng : Engine) : Prop :=
  ∃ e : JsError, eng.recognize "" = Except.error e ∧ e.message ≠ ""

/-- Modelled from the spec: `ocr.extractText(path)` from the missing
`src/ocr/ocr.ts`.  It delegates to the external engine and propagates its
failure unchanged to the caller. -/
def OCR.extractText (eng : Engine) (path : String) : Except JsError TextResult :=
  eng.recognize path

/-- Renders a `Rat` the way the model prints numbers. -/
def ratStr (q : Rat) : String :=
  toString q.num ++ "/" ++ toString q.den

/-- The stdout line produced by `console.log('抽出されたテキスト:', textResult)`:
the label followed by a rendering of the whole `TextResult` record (both
fields), not of the `text` field alone. -/
def successLine (r : TextResult) : String :=
  "抽出されたテキスト: \x7b text: " ++ (r.text ++ (", confidence: " ++ (ratStr r.confidence ++ " \x7d")))

/-- The stderr line produced by `console.error('エラーが発生しました:', error)`
in the `.catch` handler. -/
def errorLine (e : JsError) : String :=
  "エラーが発生しました: " ++ e.message

/-- The hardcoded image path of the entry point:
`const imagePath = 'path/to/image.png'`. -/
def imagePath : String :=
  "path/to/image.png"

/-- The observable behaviour of one process run: stdout lines, stderr
lines, the paths passed to `extractText`, whether a rejection escaped all
handlers, and the exit code. -/
structure ProcState where
  stdout : List String
  stderr : List String
  calls : List String
  uncaught : Bool
  exitCode : Nat
deriving DecidableEq

/-- The body of the `async` function `main`: construct the `OCR` client
(`ctor` is the outcome of `new OCR()`, whose code is external), call
`extractText` once on the given path, and log the result.  The first
component records the paths on which `extractText` was invoked; the second
is the stdout produced, or the rejection of the promise returned by
`main()`. -/
def mainPromise (ctor : Except JsError Engine) (path : String) :
    List String × Except JsError (List String) :=
  match ctor with
  | Except.error e => ([], Except.error e)
  | Except.ok ocr =>
    ([path],
      match OCR.extractText ocr path with
      | Except.ok r => Except.ok [successLine r]
      | Except.error e => Except.error e)

/-- The top-level statement `main().catch(error => console.error(...))`:
any rejection of `main()` is consumed by the handler, which only writes the
diagnostic line to stderr and completes normally, so no rejection stays
unhandled and the process exits with code 0 once the event loop drains. -/
def mainWithCatch (ctor : Except JsError Engine) (path : String) : ProcState :=
  match mainPromise ctor path with
  | (calls, Except.ok out) => ⟨out, [], calls, false, 0⟩
  | (calls, Except.error e) => ⟨[], [errorLine e], calls, false, 0⟩

/-- A full run of the program as shipped: `main().catch(...)` on the
hardcoded `imagePath`. -/
def mainRun (ctor : Except JsError Engine) : ProcState :=
  mainWithCatch ctor imagePath

/-- A process invocation with command-line arguments.  The source never
reads `process.argv`, so the run ignores `argv` entirely. -/
def procMain (_argv : List String) (ctor : Except JsError Engine) : ProcState :=
  mainRun ctor

/-- The states of the trivial flow of the entry point. -/
inductive Outcome where
  | running : Outcome
  | succeeded : Outcome
  | failed : Outcome
deriving DecidableEq

/-- The terminal outcome a run with a constructed client reaches. -/
def runOutcome (eng : Engine) : Outcome :=
  match OCR.extractText eng imagePath with
  | Except.ok _ => Outcome.succeeded
  | Except.error _ => Outcome.failed

/-- Modelled from the spec: a possibly call-dependent engine, for the
idempotence question.  The spec notes that determinism is engine-dependent,
so recognition here may also depend on the index of the call. -/
structure EngineND where
  recognizeAt : Nat → String → Except JsError TextResult

/-- Modelled from the spec: `ocr.extractText(path)` on the `call`-th
invocation, over a possibly call-dependent engine. -/
def OCR.extractTextAt (eng : EngineND) (call : Nat) (path : String) :
    Except JsError TextResult :=
  eng.recognizeAt call path

/-- An engine whose behaviour does not depend on the call index. -/
def EngineND.Deterministic (eng : EngineND) : Prop :=
  ∀ (m n : Nat) (path : String), eng.recognizeAt m path = eng.recognizeAt n path

/-- An engine that fails on every path with a fixed message. -/
def failEng : Engine :=
  ⟨fun _ => Except.error ⟨"boom"⟩⟩

/-- An engine that recognizes the text HELLO with confidence 9/10 on every
path. -/
def okEng : Engine :=
  ⟨fun _ => Except.ok ⟨"HELLO", mkRat 9 10⟩⟩

/-- A call-dependent engine: the first call reads A, every later call
reads B. -/
def flakyEng : EngineND :=
  ⟨fun n _ => if n = 0 then Except.ok ⟨"A", 1⟩ else Except.ok ⟨"B", 1⟩⟩

/-- A call-independent engine for the determinism witness. -/
def steadyEng : EngineND :=
  ⟨fun _ _ => Except.ok ⟨"HELLO", 1⟩⟩

example : OCR.extractText okEng imagePath = Except.ok ⟨"HELLO", mkRat 9 10⟩ := rfl

example : (mainRun (Except.ok failEng)).stderr = ["エラーが発生しました: boom"] := rfl

example : (mainRun (Except.ok okEng)).stdout =
    ["抽出されたテキスト: \x7b text: HELLO, confidence: 9/10 \x7d"] := by decide

/-- Claim C1: every error raised during the extraction call reaches the
top-level `.catch` handler of the entry point, which prints a diagnostic
line to stderr; no rejection escapes unhandled and nothing is written to
stdout. -/
theorem main_catches_extraction_error (eng : Engine) (e : JsError)
    (h : OCR.extractText eng imagePath = Except.error e) :
    (mainRun (Except.ok eng)).stderr = [errorLine e] ∧
      (mainRun (Except.ok eng)).uncaught = false ∧
      (mainRun (Except.ok eng)).stdout = [] := by
  refine ⟨?_, ?_, ?_⟩ <;> simp [mainRun, mainWithCatch, mainPromise, h]

/-- Claim C1 witness: a concrete always-failing engine reaches the handler. -/
theorem main_catches_extraction_error_witness :
    OCR.extractText failEng imagePath = Except.error ⟨"boom"⟩ ∧
      ((mainRun (Except.ok failEng)).stderr = [errorLine ⟨"boom"⟩] ∧
        (mainRun (Except.ok failEng)).uncaught = false ∧
        (mainRun (Except.ok failEng)).stdout = []) :=
  ⟨rfl, main_catches_extraction_error failEng ⟨"boom"⟩ rfl⟩

/-- Claim C2 counterexample: with a concrete successful engine, the stdout
of the run is not the `text` field of the returned `TextResult` — the
source logs the whole record, with a label, not the text alone. -/
theorem main_prints_whole_result_not_text_field :
    OCR.extractText okEng imagePath = Except.ok ⟨"HELLO", mkRat 9 10⟩ ∧
      (mainRun (Except.ok okEng)).stdout ≠ [("HELLO" : String)] :=
  ⟨rfl, by decide⟩

/-- Claim C2 as amended: on success the entry point prints one labeled
stdout line rendering the entire `TextResult`; the `text` field occurs
inside that line, but the line is not the `text` field itself. -/
theorem main_success_prints_labeled_line (eng : Engine) (r : TextResult)
    (h : OCR.extractText eng imagePath = Except.ok r) :
    (mainRun (Except.ok eng)).stdout = [successLine r] ∧
      ∃ pre post : String, successLine r = pre ++ (r.text ++ post) := by
  refine ⟨?_, "抽出されたテキスト: \x7b text: ",
    ", confidence: " ++ (ratStr r.confidence ++ " \x7d"), rfl⟩
  simp [mainRun, mainWithCatch, mainPromise, h]

/-- Claim C2 amended witness: the concrete successful engine produces the
labeled line. -/
theorem main_success_prints_labeled_line_witness :
    OCR.extractText okEng imagePath = Except.ok ⟨"HELLO", mkRat 9 10⟩ ∧
      ((mainRun (Except.ok okEng)).stdout = [successLine ⟨"HELLO", mkRat 9 10⟩] ∧
        ∃ pre post : String,
          successLine ⟨"HELLO", mkRat 9 10⟩ =
            pre ++ (("HELLO" : String) ++ post)) :=
  ⟨rfl, main_success_prints_labeled_line okEng ⟨"HELLO", mkRat 9 10⟩ rfl⟩

/-- Claim C3 counterexample: it is false that on failure the process exits
via the default unhandled-rejection path; with a concrete failing engine
the rejection is handled by the attached `.catch`, so `uncaught` is false. -/
theorem main_failure_rejection_handled_cx :
    ¬ (∀ (eng : Engine) (e : JsError),
        OCR.extractText eng imagePath = Except.error e →
          (mainRun (Except.ok eng)).stderr ≠ [] ∧
            (mainRun (Except.ok eng)).uncaught = true) := by
  intro h
  have hb := (h failEng ⟨"boom"⟩ rfl).2
  exact absurd hb (by decide)

/-- Claim C3 as amended: on failure an error message is printed to the
error stream, but the rejection of the entry-point promise is explicitly
handled by the `.catch` handler, so the process exits normally with code 0
rather than through the unhandled-rejection path. -/
theorem main_failure_handled_exits_normally (eng : Engine) (e : JsError)
    (h : OCR.extractText eng imagePath = Except.error e) :
    (mainRun (Except.ok eng)).stderr = [errorLine e] ∧
      (mainRun (Except.ok eng)).uncaught = false ∧
      (mainRun (Except.ok eng)).exitCode = 0 := by
  refine ⟨?_, ?_, ?_⟩ <;> simp [mainRun, mainWithCatch, mainPromise, h]

/-- Claim C3 amended witness: the concrete failing engine exits cleanly
with the diagnostic on stderr. -/
theorem main_failure_handled_exits_normally_witness :
    OCR.extractText failEng imagePath = Except.error ⟨"boom"⟩ ∧
      ((mainRun (Except.ok failEng)).stderr = [errorLine ⟨"boom"⟩] ∧
        (mainRun (Except.ok failEng)).uncaught = false ∧
        (mainRun (Except.ok failEng)).exitCode = 0) :=
  ⟨rfl, main_failure_handled_exits_normally failEng ⟨"boom"⟩ rfl⟩

/-- Claim C4: for an engine meeting the spec contract and a valid image
path (one the engine recognizes), `extractText` returns a `TextResult`
whose confidence lies in [0,1] and whose text is a string, possibly
empty. -/
theorem extractText_valid_path_bounds (eng : Engine)
    (hok : Engine.ConfidenceOk eng) (path : String)
    (hv : ∃ r₀ : TextResult, eng.recognize path = Except.ok r₀) :
    ∃ r : TextResult, OCR.extractText eng path = Except.ok r ∧
      0 ≤ r.confidence ∧ r.confidence ≤ 1 := by
  obtain ⟨r₀, hr⟩ := hv
  exact ⟨r₀, hr, hok path r₀ hr⟩

/-- Claim C4 witness: the concrete engine yields HELLO with confidence
9/10 on a sample path. -/
theorem extractText_valid_path_bounds_witness :
    Engine.ConfidenceOk okEng ∧
      (∃ r₀ : TextResult, okEng.recognize "samples/hello.png" = Except.ok r₀) ∧
      ∃ r : TextResult,
        OCR.extractText okEng "samples/hello.png" = Except.ok r ∧
          0 ≤ r.confidence ∧ r.confidence ≤ 1 := by
  have hok : Engine.ConfidenceOk okEng := by
    intro path r h
    have hr := Except.ok.inj h
    subst hr
    decide
  exact ⟨hok, ⟨⟨"HELLO", mkRat 9 10⟩, rfl⟩,
    extractText_valid_path_bounds okEng hok "samples/hello.png"
      ⟨⟨"HELLO", mkRat 9 10⟩, rfl⟩⟩

/-- Claim C5: the run is independent of any command-line arguments, the
image path is the literal constant of the entry point, and that constant is
the path on which extraction is invoked. -/
theorem entrypoint_no_cli_args :
    (∀ (a b : List String) (ctor : Except JsError Engine),
        procMain a ctor = procMain b ctor) ∧
      imagePath = "path/to/image.png" ∧
      ∀ eng : Engine, (mainRun (Except.ok eng)).calls = [imagePath] := by
  refine ⟨fun a b ctor => rfl, rfl, fun eng => ?_⟩
  cases h : OCR.extractText eng imagePath <;>
    simp [mainRun, mainWithCatch, mainPromise, h]

/-- Claim C6: for an engine meeting the spec contract, the empty path makes
`extractText` fail with a descriptive (nonempty) error rather than return a
`TextResult`; the run on that path prints the error message to stderr,
writes nothing (in particular no stack trace) to stdout, and terminates
cleanly with no unhandled rejection.  Failures reaching the caller are the
single undifferentiated `JsError` shape, fully determined by a message. -/
theorem extractText_empty_path_fails (eng : Engine)
    (h : Engine.EmptyPathFails eng) :
    (∃ e : JsError, OCR.extractText eng "" = Except.error e ∧ e.message ≠ "" ∧
        (mainWithCatch (Except.ok eng) "").stdout = [] ∧
        (mainWithCatch (Except.ok eng) "").stderr = [errorLine e] ∧
        (mainWithCatch (Except.ok eng) "").uncaught = false) ∧
      ∀ e : JsError, e = ⟨e.message⟩ := by
  obtain ⟨e, he, hm⟩ := h
  refine ⟨⟨e, he, hm, ?_, ?_, ?_⟩, fun e => rfl⟩ <;>
    simp [mainWithCatch, mainPromise, OCR.extractText, he]

/-- Claim C6 witness: the concrete failing engine meets the contract and
exhibits the clean failure on the empty path. -/
theorem extractText_empty_path_fails_witness :
    Engine.EmptyPathFails failEng ∧
      ((∃ e : JsError, OCR.extractText failEng "" = Except.error e ∧
          e.message ≠ "" ∧
          (mainWithCatch (Except.ok failEng) "").stdout = [] ∧
          (mainWithCatch (Except.ok failEng) "").stderr = [errorLine e] ∧
          (mainWithCatch (Except.ok failEng) "").uncaught = false) ∧
        ∀ e : JsError, e = ⟨e.message⟩) :=
  ⟨⟨⟨"boom"⟩, rfl, by decide⟩,
    extractText_empty_path_fails failEng ⟨⟨"boom"⟩, rfl, by decide⟩⟩

/-- Claim C7: every run with a constructed client reaches one of the two
terminal outcomes, never stays in the running state, and invokes
`extractText` exactly once — on `imagePath` — whichever outcome occurs, so
no retry ever follows a failure. -/
theorem main_single_shot_flow :
    ∀ eng : Engine,
      (runOutcome eng = Outcome.succeeded ∨ runOutcome eng = Outcome.failed) ∧
        runOutcome eng ≠ Outcome.running ∧
        (mainRun (Except.ok eng)).calls = [imagePath] := by
  intro eng
  cases h : OCR.extractText eng imagePath <;>
    simp [runOutcome, mainRun, mainWithCatch, mainPromise, h]

/-- Claim C8 counterexample: the `Image` interface does not make width and
height non-negative — the record with width and height both -1 is a valid
`Image` value. -/
theorem image_dims_not_enforced_cx :
    ¬ (∀ img : Image, 0 ≤ img.width ∧ 0 ≤ img.height) := by
  intro h
  have hneg := (h ⟨"file.png", -1, -1⟩).1
  exact absurd hneg (by decide)

/-- Claim C8 as amended: the `Image` type constrains neither field — every
url and every pair of numeric dimensions, negative or fractional included,
yields a valid `Image` value; non-negativity is only a recommended
invariant, with no enforcement in the source. -/
theorem image_dims_unconstrained (u : String) (w h : Rat) :
    ∃ img : Image, img.url = u ∧ img.width = w ∧ img.height = h :=
  ⟨⟨u, w, h⟩, rfl, rfl, rfl⟩

/-- Claim C9 counterexample: two calls of `extractText` on the same
unchanged path need not yield the same text — a call-dependent engine
returns A on the first call and B on the second. -/
theorem extractText_not_two_run_deterministic_cx :
    ¬ (∀ (eng : EngineND) (path : String) (r₁ r₂ : TextResult),
        OCR.extractTextAt eng 0 path = Except.ok r₁ →
          OCR.extractTextAt eng 1 path = Except.ok r₂ → r₁.text = r₂.text) := by
  intro h
  have hab := h flakyEng "path/to/image.png" ⟨"A", 1⟩ ⟨"B", 1⟩ rfl rfl
  exact absurd hab (by decide)

/-- Claim C9 as amended: when the underlying engine is deterministic (its
answer does not depend on the call index), calling `extractText` twice on
the same unchanged path yields the same text; the spec leaves engine
determinism unguaranteed, so this holds only under that hypothesis. -/
theorem extractText_deterministic_engine (eng : EngineND)
    (hdet : eng.Deterministic) (m n : Nat) (path : String)
    (r₁ r₂ : TextResult)
    (h₁ : OCR.extractTextAt eng m path = Except.ok r₁)
    (h₂ : OCR.extractTextAt eng n path = Except.ok r₂) :
    r₁.text = r₂.text := by
  unfold OCR.extractTextAt at h₁ h₂
  rw [hdet m n path] at h₁
  have hr := Except.ok.inj (h₁.symm.trans h₂)
  rw [hr]

/-- Claim C9 amended witness: a call-independent engine yields the same
text on calls 0 and 1. -/
theorem extractText_deterministic_engine_witness :
    EngineND.Deterministic steadyEng ∧
      OCR.extractTextAt steadyEng 0 "path/to/image.png" =
        Except.ok ⟨"HELLO", 1⟩ ∧
      OCR.extractTextAt steadyEng 1 "path/to/image.png" =
        Except.ok ⟨"HELLO", 1⟩ ∧
      (⟨"HELLO", 1⟩ : TextResult).text = (⟨"HELLO", 1⟩ : TextResult).text :=
  ⟨fun _ _ _ => rfl, rfl, rfl,
    extractText_deterministic_engine steadyEng (fun _ _ _ => rfl) 0 1
      "path/to/image.png" ⟨"HELLO", 1⟩ ⟨"HELLO", 1⟩ rfl rfl⟩

/-- Claim C10: the single `.catch` covers the whole body of `main`, so an
error thrown while constructing the OCR client — before any extraction call
— is caught by the same handler: it is printed with the same stderr line,
no extraction call happens, and no rejection escapes. -/
theorem main_catch_covers_constructor_error (e : JsError) :
    mainRun (Except.error e) =
      (⟨[], [errorLine e], [], false, 0⟩ : ProcState) :=
  rfl
